import Mathlib

/-!
Verification of the Delmar Nazarene Church client-side scripts.

The development shallowly embeds the two JavaScript source files
(`main.js`, given as `src/unnamed/part_000`, and
`src/assets/js/language-switcher.js`) into Lean:

* DOM state touched by each module (classes, ARIA attributes, the focused
  element, `window.location`, `localStorage`) becomes a record; each event
  handler becomes a pure state-transition function.
* The two regular expressions used by `FormHelpers.validateField` are
  embedded as regex ASTs and executed by a standard Brzozowski-derivative
  matcher.
* JavaScript string primitives used by the code (`trim`, `\s`,
  `toLowerCase`, `split('-')[0]`, `includes`, `startsWith`) are embedded
  as executable functions on Lean strings.
-/

namespace Delmar

/-! ## JavaScript string primitives -/

/-- The character set of JavaScript `\s` (ECMAScript WhiteSpace and
LineTerminator): space, tab, LF, VT, FF, CR, NBSP, Ogham space mark,
U+2000–U+200A, LS, PS, NNBSP, MMSP, ideographic space, BOM. -/
def jsWhitespace (c : Char) : Bool :=
  c = ' ' || c = '\t' || c = '\n' || c.val = 11 || c.val = 12 || c = '\r' ||
  c.val = 0xa0 || c.val = 0x1680 || (0x2000 ≤ c.val && c.val ≤ 0x200a) ||
  c.val = 0x2028 || c.val = 0x2029 || c.val = 0x202f || c.val = 0x205f ||
  c.val = 0x3000 || c.val = 0xfeff

/-- JavaScript `String.prototype.trim`: strip `\s` characters from both
ends. -/
def jsTrim (s : String) : String :=
  ⟨((s.toList.dropWhile jsWhitespace).reverse.dropWhile jsWhitespace).reverse⟩

/-! ## A small anchored regex matcher (Brzozowski derivatives)

`RE` is the abstract syntax of the two regexes appearing in the source;
`reTest r s` implements `/^r$/.test(s)` by repeated derivation. The smart
constructors `scat`/`salt` only collapse the empty and the
empty-string regex, which keeps derivatives of the concrete regexes small
enough to evaluate and reason about directly. -/

inductive RE : Type where
  | emp : RE
  | eps : RE
  | cls : (Char → Bool) → RE
  | cat : RE → RE → RE
  | alt : RE → RE → RE
  | star : RE → RE

namespace RE

/-- Smart concatenation: `emp` annihilates, `eps` is a unit. -/
def scat : RE → RE → RE
  | emp, _ => emp
  | _, emp => emp
  | eps, b => b
  | a, eps => a
  | a, b => cat a b

/-- Smart alternation: `emp` is a unit. -/
def salt : RE → RE → RE
  | emp, b => b
  | a, emp => a
  | a, b => alt a b

/-- Does the regex accept the empty string? -/
def nullable : RE → Bool
  | emp => false
  | eps => true
  | cls _ => false
  | cat a b => nullable a && nullable b
  | alt a b => nullable a || nullable b
  | star _ => true

/-- Brzozowski derivative with respect to one character. -/
def deriv (c : Char) : RE → RE
  | emp => emp
  | eps => emp
  | cls p => if p c then eps else emp
  | cat a b =>
      if nullable a then salt (scat (deriv c a) b) (deriv c b)
      else scat (deriv c a) b
  | alt a b => salt (deriv c a) (deriv c b)
  | star a => scat (deriv c a) (star a)

/-- Anchored match of a character list. -/
def reMatch (r : RE) : List Char → Bool
  | [] => nullable r
  | c :: cs => reMatch (deriv c r) cs

/-- Anchored test: `reTest r s` is `new RegExp('^' + r + '$').test(s)`. -/
def reTest (r : RE) (s : String) : Bool := reMatch r s.toList

/-- A single literal character. -/
def chr (c : Char) : RE := cls (fun d => d = c)

/-- One or more characters of a class: `[p]+`. -/
def plus (p : Char → Bool) : RE := cat (cls p) (star (cls p))

end RE

open RE

/-! ## FormHelpers (`main.js`, lines 388–477) -/

/-- The class `[^\s@]` of the email regex. -/
def emailChar (c : Char) : Bool := !jsWhitespace c && !(c = '@')

/-- The email regex `/^[^\s@]+@[^\s@]+\.[^\s@]+$/` from `FormHelpers.validateField`. -/
def emailRE : RE :=
  cat (plus emailChar)
    (cat (chr '@') (cat (plus emailChar) (cat (chr '.') (plus emailChar))))

/-- The class `[\d\s\-\+\(\)]` of the phone regex. -/
def phoneChar (c : Char) : Bool :=
  c.isDigit || jsWhitespace c || c = '-' || c = '+' || c = '(' || c = ')'

/-- Exactly `n` mandatory occurrences of class `p` followed by `[p]*`;
`seqcls p 10` is exactly `[p]{10,}`. -/
def seqcls (p : Char → Bool) : Nat → RE
  | 0 => star (cls p)
  | n + 1 => cat (cls p) (seqcls p n)

/-- The phone regex `/^[\d\s\-\+\(\)]{10,}$/` from `FormHelpers.validateField`. -/
def phoneRE : RE := seqcls phoneChar 10

/-- A form field as `validateField` sees it: its `type` attribute, its
`value`, and whether it has the `required` attribute. -/
structure Field where
  type : String
  value : String
  required : Bool

/-- Function `FormHelpers.validateField` (`main.js` 427–461): returns the `isValid`
flag and the `errorMessage` passed to `setFieldState`. -/
def validateField (f : Field) : Bool × String :=
  let value := jsTrim f.value
  let st : Bool × String := (true, "")
  let st := if f.required && value = "" then (false, "This field is required") else st
  let st :=
    if f.type = "email" && value ≠ "" && !reTest emailRE value then
      (false, "Please enter a valid email address")
    else st
  let st :=
    if f.type = "tel" && value ≠ "" && !reTest phoneRE value then
      (false, "Please enter a valid phone number")
    else st
  st

end Delmar

namespace Delmar

open RE

/-! Basic facts about the matcher needed for the phone characterisation. -/

theorem reMatch_emp : ∀ s : List Char, reMatch RE.emp s = false := by
  intro s
  induction s with
  | nil => rfl
  | cons c cs ih => simpa [RE.reMatch, RE.deriv] using ih

/-- The regex `[p]{n,}` accepts exactly the strings of length at least `n` whose
characters all satisfy `p`. -/
theorem reMatch_seqcls (p : Char → Bool) :
    ∀ (s : List Char) (n : Nat),
      reMatch (seqcls p n) s = (decide (n ≤ s.length) && s.all p) := by
  intro s
  induction s with
  | nil =>
    intro n
    cases n with
    | zero => simp [seqcls, RE.reMatch, RE.nullable]
    | succ n => simp [seqcls, RE.reMatch, RE.nullable]
  | cons c cs ih =>
    intro n
    cases n with
    | zero =>
      by_cases hc : p c
      · simpa [seqcls, RE.reMatch, RE.deriv, RE.scat, hc] using ih 0
      · simp [seqcls, RE.reMatch, RE.deriv, RE.scat, hc, reMatch_emp]
    | succ n =>
      cases n with
      | zero =>
        by_cases hc : p c
        · simpa [seqcls, RE.reMatch, RE.deriv, RE.nullable, RE.scat, hc,
            Nat.succ_le_succ_iff] using ih 0
        · simp [seqcls, RE.reMatch, RE.deriv, RE.nullable, RE.scat, hc, reMatch_emp]
      | succ m =>
        by_cases hc : p c
        · simpa [seqcls, RE.reMatch, RE.deriv, RE.nullable, RE.scat, hc,
            Nat.succ_le_succ_iff] using ih (m + 1)
        · simp [seqcls, RE.reMatch, RE.deriv, RE.nullable, RE.scat, hc, reMatch_emp]

/-- The phone regex characterised: at least ten characters, all from the
class `[\d\s\-\+\(\)]`. -/
theorem reTest_phoneRE (s : String) :
    reTest phoneRE s = (decide (10 ≤ s.length) && s.toList.all phoneChar) := by
  exact reMatch_seqcls phoneChar s.toList 10

/-- The phone acceptance set exactly as the claim words it ("at least 10
characters drawn only from digits, spaces, '-', '+', '(' and ')'"): the
literal space character, not the whole `\s` class. Modelled from the
claim's words, for comparison with the source regex. -/
def claimPhoneChar (c : Char) : Bool :=
  c.isDigit || c = ' ' || c = '-' || c = '+' || c = '(' || c = ')'

/-- Acceptance set of the claim's wording for phone values. -/
def claimPhoneAccepts (s : String) : Bool :=
  decide (10 ≤ s.length) && s.toList.all claimPhoneChar

set_option maxRecDepth 4000 in
/-- C1, counterexample: the value `"12345678\t9"` (ten characters, one of
them a tab) is marked valid by `validateField` — the regex class `\s`
matches the tab — yet it is not in the claim's acceptance set "digits,
spaces, '-', '+', '(' and ')'", so the claimed iff fails at this input. -/
theorem C1_counterexample :
    (validateField { type := "tel", value := "12345678\t9", required := false }).1 = true ∧
    claimPhoneAccepts (jsTrim "12345678\t9") = false := by
  decide

/-- C1, amended: for a field of type `email` with non-empty trimmed value,
`validateField` marks it valid iff the value matches
`/^[^\s@]+@[^\s@]+\.[^\s@]+$/`, and on failure sets the error message
"Please enter a valid email address"; for a field of type `tel` with
non-empty trimmed value, it marks it valid iff the value consists of at
least 10 characters drawn only from digits, JavaScript whitespace
characters (`\s`), '-', '+', '(' and ')', and on failure sets the error
message "Please enter a valid phone number". -/
theorem C1_theorem (f : Field) :
    (f.type = "email" → jsTrim f.value ≠ "" →
      (validateField f).1 = reTest emailRE (jsTrim f.value) ∧
      ((validateField f).1 = false →
        (validateField f).2 = "Please enter a valid email address")) ∧
    (f.type = "tel" → jsTrim f.value ≠ "" →
      (validateField f).1 =
        (decide (10 ≤ (jsTrim f.value).length) && (jsTrim f.value).toList.all phoneChar) ∧
      ((validateField f).1 = false →
        (validateField f).2 = "Please enter a valid phone number")) := by
  constructor
  · intro hty hne
    by_cases hm : reTest emailRE (jsTrim f.value) = true
    · simp [validateField, hty, hne, hm]
    · simp [validateField, hty, hne, hm, Bool.not_eq_true] at *
  · intro hty hne
    rw [← reTest_phoneRE]
    by_cases hm : reTest phoneRE (jsTrim f.value) = true
    · simp [validateField, hty, hne, hm]
    · simp [validateField, hty, hne, hm, Bool.not_eq_true] at *

/-- Witness for `C1_theorem` at concrete fields of both types. -/
theorem C1_theorem_witness :
    (validateField { type := "email", value := "a@b.c", required := false }).1 = true ∧
    (validateField { type := "tel", value := "(555) 123-4567", required := false }).1 = true := by
  constructor
  · have h := (C1_theorem { type := "email", value := "a@b.c", required := false }).1
      rfl (by decide)
    rw [h.1]; decide
  · have h := (C1_theorem { type := "tel", value := "(555) 123-4567", required := false }).2
      rfl (by decide)
    rw [h.1]; decide

/-! ## LanguageSwitcher (`language-switcher.js`)

The module's observable state: its `currentLanguage` field, the single
`localStorage` entry under the key `'delmar-preferred-language'`
(`storageVal`, plus a `storageFails` flag saying whether the storage
backend throws), `window.location` (`locationPath` is the pathname the
page was loaded with; `locationHref` records an assignment to
`window.location.href`, i.e. a navigation), and counters for
`console.warn` calls and coming-soon toasts. -/

/-- One entry of `LanguageSwitcher.config.languages`. -/
structure LangCfg where
  code : String
  name : String
  nativeName : String
  dir : String
  enabled : Bool
  path : String
deriving DecidableEq

/-- Entry `config.languages.en`. -/
def enConfig : LangCfg :=
  { code := "en", name := "English", nativeName := "English",
    dir := "ltr", enabled := true, path := "/en/" }

/-- Entry `config.languages.ht` (disabled, Phase 2). -/
def htConfig : LangCfg :=
  { code := "ht", name := "Haitian Creole", nativeName := "Kreyòl Ayisyen",
    dir := "ltr", enabled := false, path := "/ht/" }

/-- Entry `config.languages.fr` (disabled, Phase 3). -/
def frConfig : LangCfg :=
  { code := "fr", name := "French", nativeName := "Français",
    dir := "ltr", enabled := false, path := "/fr/" }

/-- Dictionary lookup `config.languages[s]`. -/
def languages (s : String) : Option LangCfg :=
  if s = "en" then some enConfig
  else if s = "ht" then some htConfig
  else if s = "fr" then some frConfig
  else none

/-- Constant `config.defaultLanguage`. -/
def defaultLanguage : String := "en"

/-- Constant `config.storageKey`; `storageVal` below is the value stored under it. -/
def storageKey : String := "delmar-preferred-language"

/-- Observable state of the language switcher. -/
structure LSState where
  currentLanguage : String
  storageVal : Option String
  storageFails : Bool
  locationPath : String
  locationHref : Option String
  warnings : Nat
  toasts : Nat
deriving DecidableEq

/-- Method `LanguageSwitcher.storePreference` (lines 228–234):
`try { localStorage.setItem(key, langCode) } catch (e) { console.warn(...) }`. -/
def storePreference (st : LSState) (langCode : String) : LSState :=
  if st.storageFails then { st with warnings := st.warnings + 1 }
  else { st with storageVal := some langCode }

/-- Method `LanguageSwitcher.getStoredPreference` (lines 240–247): returns the
stored value, or `none` with a warning when the backend throws. -/
def getStoredPreference (st : LSState) : Option String × LSState :=
  if st.storageFails then (none, { st with warnings := st.warnings + 1 })
  else (st.storageVal, st)

/-- JavaScript `lang.split('-')[0]`: the characters before the first `-`. -/
def splitDashHead (s : String) : String :=
  ⟨s.toList.takeWhile (fun c => !(c = '-'))⟩

/-- Does the character list begin with the given prefix list? -/
def listBeginsWith : List Char → List Char → Bool
  | _, [] => true
  | [], _ :: _ => false
  | c :: cs, d :: ds => c = d && listBeginsWith cs ds

/-- Does the character list contain the given list as a contiguous run? -/
def listContainsRun : List Char → List Char → Bool
  | [], sub => sub.isEmpty
  | c :: cs, sub => listBeginsWith (c :: cs) sub || listContainsRun cs sub

/-- JavaScript `s.includes(sub)`. -/
def jsIncludes (s sub : String) : Bool :=
  listContainsRun s.toList sub.toList

/-- JavaScript `s.startsWith(pre)`. -/
def jsStartsWith (s pre : String) : Bool :=
  listBeginsWith s.toList pre.toList

/-- JavaScript `s.toLowerCase()` (the code only applies it to ASCII
language tags, where it agrees with `Char.toLower`). -/
def jsToLower (s : String) : String :=
  ⟨s.toList.map Char.toLower⟩

/-- JavaScript `s.substring(n)` for ASCII strings: drop the first `n`
characters. -/
def jsDrop (s : String) (n : Nat) : String :=
  ⟨s.toList.drop n⟩

/-- Method `LanguageSwitcher.detectBrowserLanguage` (lines 101–121): walk the
browser language list; return `'ht'` for a Haitian-Creole-looking tag
only if `ht` is enabled; return the primary subtag if its configuration
exists and is enabled; otherwise fall back to `config.defaultLanguage`. -/
def detectBrowserLanguage : List String → String
  | [] => defaultLanguage
  | lang :: rest =>
    let primaryLang := jsToLower (splitDashHead lang)
    if (jsIncludes (jsToLower lang) "ht" || jsIncludes (jsToLower lang) "haitian") &&
        (languages "ht").elim false LangCfg.enabled then "ht"
    else if (languages primaryLang).elim false LangCfg.enabled then primaryLang
    else detectBrowserLanguage rest

/-- Method `LanguageSwitcher.detectCurrentLanguage` (lines 80–95): URL path
prefix (regex `^\/(en|ht|fr)\/` plus a truthy config lookup), then the
stored preference when truthy and configured, then browser detection.
The direct `localStorage.getItem` read is modelled by the `stored`
argument. -/
def detectCurrentLanguage (path : String) (stored : Option String)
    (browserLangs : List String) : String :=
  if jsStartsWith path "/en/" && (languages "en").isSome then "en"
  else if jsStartsWith path "/ht/" && (languages "ht").isSome then "ht"
  else if jsStartsWith path "/fr/" && (languages "fr").isSome then "fr"
  else
    match stored with
    | some s =>
      if !(s = "") && (languages s).isSome then s
      else detectBrowserLanguage browserLangs
    | none => detectBrowserLanguage browserLangs

/-- The match `currentPath.match(/^\/(en|ht|fr)(\/.*)?$/)` used by
`switchLanguage`: returns capture groups 1 and 2 when the path matches. -/
def pathLangMatch (p : String) : Option (String × Option String) :=
  if p = "/en" then some ("en", none)
  else if jsStartsWith p "/en/" then some ("en", some (jsDrop p 3))
  else if p = "/ht" then some ("ht", none)
  else if jsStartsWith p "/ht/" then some ("ht", some (jsDrop p 3))
  else if p = "/fr" then some ("fr", none)
  else if jsStartsWith p "/fr/" then some ("fr", some (jsDrop p 3))
  else none

/-- Method `LanguageSwitcher.switchLanguage` (lines 199–222): store the
preference, rebuild the path under the new language prefix, and navigate
by assigning `window.location.href`. Its call sites guarantee the code
is configured; for an unconfigured code the source would throw, modelled
here as no state change. -/
def switchLanguage (st : LSState) (langCode : String) : LSState :=
  match languages langCode with
  | none => st
  | some cfg =>
    let st := storePreference st langCode
    let newPath :=
      match pathLangMatch st.locationPath with
      | some (_, g2) =>
        let pagePath := match g2 with
          | some s => if !(s = "") then s else "/"
          | none => "/"
        cfg.path ++ jsDrop pagePath 1
      | none => cfg.path
    { st with locationHref := some newPath }

/-- Method `LanguageSwitcher.handleLanguageChange` (lines 171–193): warn on an
unknown code, show the coming-soon toast for a disabled language, do
nothing when already on the requested language, otherwise switch. -/
def handleLanguageChange (st : LSState) (langCode : String) : LSState :=
  match languages langCode with
  | none => { st with warnings := st.warnings + 1 }
  | some cfg =>
    if !cfg.enabled then { st with toasts := st.toasts + 1 }
    else if langCode = st.currentLanguage then st
    else switchLanguage st langCode

/-- Method `LanguageSwitcher.init` (lines 60–74), restricted to its effects on
this state: detect the current language and store it via
`storePreference`. `setupButtons` and `updateDocumentLanguage` touch
only DOM attributes outside this state. -/
def languageSwitcherInit (st : LSState) (browserLangs : List String) : LSState :=
  let cur := detectCurrentLanguage st.locationPath st.storageVal browserLangs
  storePreference { st with currentLanguage := cur } cur

/-- A concrete starting state used by witnesses. -/
def lsInit : LSState :=
  { currentLanguage := "en", storageVal := none, storageFails := false,
    locationPath := "/", locationHref := none, warnings := 0, toasts := 0 }

/-- Only the `en` entry of the configuration is enabled. -/
theorem languages_enabled_eq_en (s : String)
    (h : (languages s).elim false LangCfg.enabled = true) : s = "en" := by
  by_cases h1 : s = "en"
  · exact h1
  by_cases h2 : s = "ht"
  · simp [languages, h1, h2, htConfig] at h
  by_cases h3 : s = "fr"
  · simp [languages, h1, h2, h3, frConfig] at h
  simp [languages, h1, h2, h3] at h

/-- The configured language codes are exactly `en`, `ht`, `fr`. -/
theorem languages_isSome_mem (s : String) (h : (languages s).isSome = true) :
    s = "en" ∨ s = "ht" ∨ s = "fr" := by
  by_cases h1 : s = "en"
  · exact Or.inl h1
  by_cases h2 : s = "ht"
  · exact Or.inr (Or.inl h2)
  by_cases h3 : s = "fr"
  · exact Or.inr (Or.inr h3)
  simp [languages, h1, h2, h3] at h

/-- With `ht` and `fr` disabled, browser detection always lands on
`en`: the Haitian-Creole special case is gated on `ht.enabled`, and the
only enabled primary subtag is `en` itself. -/
theorem detectBrowserLanguage_en (langs : List String) :
    detectBrowserLanguage langs = "en" := by
  induction langs with
  | nil => rfl
  | cons lang rest ih =>
    rw [detectBrowserLanguage]
    have hht : (languages "ht").elim false LangCfg.enabled = false := rfl
    by_cases he : (languages (jsToLower (splitDashHead lang))).elim false LangCfg.enabled = true
    · simpa [hht, he] using languages_enabled_eq_en _ he
    · simp only [Bool.not_eq_true] at he
      simp [hht, he, ih]

/-- Detection can only return a configured code. -/
theorem detectCurrentLanguage_mem (path : String) (stored : Option String)
    (langs : List String) :
    detectCurrentLanguage path stored langs = "en" ∨
    detectCurrentLanguage path stored langs = "ht" ∨
    detectCurrentLanguage path stored langs = "fr" := by
  rw [detectCurrentLanguage.eq_def]
  split
  · exact Or.inl rfl
  split
  · exact Or.inr (Or.inl rfl)
  split
  · exact Or.inr (Or.inr rfl)
  cases stored with
  | none => exact Or.inl (detectBrowserLanguage_en langs)
  | some s =>
    by_cases h : (!(s = "") && (languages s).isSome) = true
    · have hs : (languages s).isSome = true := (Bool.and_eq_true _ _ |>.mp h).2
      simpa [h] using languages_isSome_mem s hs
    · simp only [Bool.not_eq_true] at h
      simp [h, detectBrowserLanguage_en langs]

/-- C2: clicking a disabled language's button calls
`handleLanguageChange` with `'ht'` or `'fr'`; in every state this shows
the coming-soon toast and changes neither `window.location` (path or
href) nor the stored preference nor the current language — in particular
`switchLanguage` is never reached. -/
theorem C2_theorem (st : LSState) :
    ((handleLanguageChange st "ht").locationPath = st.locationPath ∧
     (handleLanguageChange st "ht").locationHref = st.locationHref ∧
     (handleLanguageChange st "ht").storageVal = st.storageVal ∧
     (handleLanguageChange st "ht").currentLanguage = st.currentLanguage ∧
     (handleLanguageChange st "ht").toasts = st.toasts + 1) ∧
    ((handleLanguageChange st "fr").locationPath = st.locationPath ∧
     (handleLanguageChange st "fr").locationHref = st.locationHref ∧
     (handleLanguageChange st "fr").storageVal = st.storageVal ∧
     (handleLanguageChange st "fr").currentLanguage = st.currentLanguage ∧
     (handleLanguageChange st "fr").toasts = st.toasts + 1) :=
  ⟨⟨rfl, rfl, rfl, rfl, rfl⟩, ⟨rfl, rfl, rfl, rfl, rfl⟩⟩

/-- C3: when the storage backend does not throw, `storePreference c`
followed by `getStoredPreference` returns `c`: the preference
round-trips through the single storage key. -/
theorem C3_theorem (st : LSState) (c : String) (h : st.storageFails = false) :
    (getStoredPreference (storePreference st c)).1 = some c := by
  simp [storePreference, getStoredPreference, h]

/-- Witness for `C3_theorem`. -/
theorem C3_theorem_witness :
    (getStoredPreference (storePreference lsInit "fr")).1 = some "fr" :=
  C3_theorem lsInit "fr" rfl

/-- C7: when the storage backend throws, `storePreference` swallows the
exception, logs a warning and leaves the stored value unchanged, and
`getStoredPreference` swallows the exception, logs a warning and
returns `null`. Both are total functions of the state, so no exception
reaches their callers. -/
theorem C7_theorem (st : LSState) (c : String) (h : st.storageFails = true) :
    (storePreference st c).storageVal = st.storageVal ∧
    (storePreference st c).warnings = st.warnings + 1 ∧
    (getStoredPreference st).1 = none ∧
    (getStoredPreference st).2.warnings = st.warnings + 1 := by
  simp [storePreference, getStoredPreference, h]

/-- Witness for `C7_theorem` at a state whose storage throws. -/
theorem C7_theorem_witness :
    (storePreference { lsInit with storageFails := true } "fr").storageVal = none ∧
    (getStoredPreference { lsInit with storageFails := true }).1 = none := by
  have h := C7_theorem { lsInit with storageFails := true } "fr" rfl
  exact ⟨h.1, h.2.2.1⟩

/-- C10: requesting the enabled language the page is already on is a
complete no-op: `handleLanguageChange` returns before `storePreference`
and before any navigation, leaving the whole state unchanged. -/
theorem C10_theorem (st : LSState) (c : String) (cfg : LangCfg)
    (hc : languages c = some cfg) (he : cfg.enabled = true)
    (hcur : c = st.currentLanguage) :
    handleLanguageChange st c = st := by
  subst hcur
  simp [handleLanguageChange, hc, he]

/-- Witness for `C10_theorem`: asking for `'en'` while on `'en'`. -/
theorem C10_theorem_witness : handleLanguageChange lsInit "en" = lsInit :=
  C10_theorem lsInit "en" enConfig rfl rfl rfl

/-- C6: every value the module itself stores under
`'delmar-preferred-language'` is one of `'en'`, `'ht'`, `'fr'`:
`detectCurrentLanguage` (whose result `init` stores) only produces
configured codes, `init` either leaves the stored value alone or stores
such a code, and `handleLanguageChange` either leaves the stored value
alone or stores the requested code, which its guard has checked to be
configured. -/
theorem C6_theorem :
    (∀ (path : String) (stored : Option String) (langs : List String),
      detectCurrentLanguage path stored langs = "en" ∨
      detectCurrentLanguage path stored langs = "ht" ∨
      detectCurrentLanguage path stored langs = "fr") ∧
    (∀ (st : LSState) (langs : List String),
      (languageSwitcherInit st langs).storageVal = st.storageVal ∨
      ∃ d, (languageSwitcherInit st langs).storageVal = some d ∧
        (d = "en" ∨ d = "ht" ∨ d = "fr")) ∧
    (∀ (st : LSState) (c : String),
      (handleLanguageChange st c).storageVal = st.storageVal ∨
      ((handleLanguageChange st c).storageVal = some c ∧
        (c = "en" ∨ c = "ht" ∨ c = "fr"))) := by
  refine ⟨detectCurrentLanguage_mem, ?_, ?_⟩
  · intro st langs
    by_cases hf : st.storageFails = true
    · left
      simp [languageSwitcherInit, storePreference, hf]
    · right
      simp only [Bool.not_eq_true] at hf
      exact ⟨detectCurrentLanguage st.locationPath st.storageVal langs,
        by simp [languageSwitcherInit, storePreference, hf],
        detectCurrentLanguage_mem _ _ _⟩
  · intro st c
    rcases hc : languages c with _ | cfg
    · left
      simp [handleLanguageChange, hc]
    · have hmem : c = "en" ∨ c = "ht" ∨ c = "fr" :=
        languages_isSome_mem c (by rw [hc]; rfl)
      by_cases he : cfg.enabled = true
      · by_cases hcur : c = st.currentLanguage
        · left
          subst hcur
          simp [handleLanguageChange, hc, he]
        · by_cases hf : st.storageFails = true
          · left
            simp [handleLanguageChange, hc, he, hcur, switchLanguage,
              storePreference, hf]
          · right
            simp only [Bool.not_eq_true] at hf
            exact ⟨by simp [handleLanguageChange, hc, he, hcur, switchLanguage,
              storePreference, hf], hmem⟩
      · left
        simp only [Bool.not_eq_true] at he
        simp [handleLanguageChange, hc, he]

/-- C9: language-detection priority. The URL path prefix wins; with no
prefix, a stored configured code wins; with neither, browser detection
runs, and because only `en` is enabled it returns `'en'` for every
browser list — in particular for Haitian Creole or French browser
languages. -/
theorem C9_theorem :
    (∀ (p : String) (stored : Option String) (l : List String),
      jsStartsWith p "/en/" = true → detectCurrentLanguage p stored l = "en") ∧
    (∀ (p : String) (stored : Option String) (l : List String),
      jsStartsWith p "/en/" = false → jsStartsWith p "/ht/" = true →
      detectCurrentLanguage p stored l = "ht") ∧
    (∀ (p : String) (stored : Option String) (l : List String),
      jsStartsWith p "/en/" = false → jsStartsWith p "/ht/" = false →
      jsStartsWith p "/fr/" = true → detectCurrentLanguage p stored l = "fr") ∧
    (∀ (p : String) (s : String) (l : List String),
      jsStartsWith p "/en/" = false → jsStartsWith p "/ht/" = false →
      jsStartsWith p "/fr/" = false → (s = "en" ∨ s = "ht" ∨ s = "fr") →
      detectCurrentLanguage p (some s) l = s) ∧
    (∀ (p : String) (stored : Option String) (l : List String),
      jsStartsWith p "/en/" = false → jsStartsWith p "/ht/" = false →
      jsStartsWith p "/fr/" = false →
      (∀ s, stored = some s → s = "" ∨ (languages s).isSome = false) →
      detectCurrentLanguage p stored l = detectBrowserLanguage l) ∧
    (∀ l : List String, detectBrowserLanguage l = "en") := by
  refine ⟨?_, ?_, ?_, ?_, ?_, detectBrowserLanguage_en⟩
  · intro p stored l h
    simp [detectCurrentLanguage, h, languages]
  · intro p stored l h1 h2
    simp [detectCurrentLanguage, h1, h2, languages]
  · intro p stored l h1 h2 h3
    simp [detectCurrentLanguage, h1, h2, h3, languages]
  · intro p s l h1 h2 h3 hmem
    have hsome : (languages s).isSome = true := by
      rcases hmem with h | h | h <;> simp [languages, h]
    have hne : (s = "") = False := by
      rcases hmem with h | h | h <;> simp [h]
    simp [detectCurrentLanguage, h1, h2, h3, hsome, hne]
  · intro p stored l h1 h2 h3 hstored
    rw [detectCurrentLanguage.eq_def]
    simp only [h1, h2, h3, Bool.false_and]
    cases stored with
    | none => simp
    | some s =>
      rcases hstored s rfl with h | h
      · simp [h]
      · simp [h]

/-- Witness for `C9_theorem` at concrete inputs for each priority
level. -/
theorem C9_theorem_witness :
    detectCurrentLanguage "/ht/about/" (some "en") [] = "ht" ∧
    detectCurrentLanguage "/contact" (some "fr") [] = "fr" ∧
    detectCurrentLanguage "/contact" (some "de") ["ht-HT", "fr-FR"] = "en" := by
  refine ⟨C9_theorem.2.1 _ _ _ (by decide) (by decide),
    C9_theorem.2.2.2.1 _ _ _ (by decide) (by decide) (by decide)
      (Or.inr (Or.inr rfl)), ?_⟩
  have h := C9_theorem.2.2.2.2.1 "/contact" (some "de") ["ht-HT", "fr-FR"]
    (by decide) (by decide) (by decide)
    (by intro s hs; cases hs; right; decide)
  rw [h]
  exact C9_theorem.2.2.2.2.2 _

/-! ## StickyHeader (`main.js` 317–356) and BackToTop (543–568) -/

/-- The state `StickyHeader.handleScroll` can observe or mutate: the
`scrolled` class on `.site-header`, `this.header.style.transform`, and
the module fields `isHidden` and `lastScrollY`. -/
structure HeaderState where
  scrolled : Bool
  transform : String
  isHidden : Bool
  lastScrollY : Nat
deriving DecidableEq

/-- Method `StickyHeader.handleScroll` (329–355): adds the `scrolled` class iff
`window.scrollY > 10`. The hide-on-scroll-down block (the 200px
threshold, `translateY(-100%)`, `isHidden`, `lastScrollY`) sits inside a
block comment in the source, so none of those fields is ever updated. -/
def handleScroll (y : Nat) (s : HeaderState) : HeaderState :=
  { s with scrolled := decide (y > 10) }

/-- The header's state on page load. -/
def stickyInit : HeaderState :=
  { scrolled := false, transform := "", isHidden := false, lastScrollY := 0 }

/-- The `visible` class on the `.back-to-top` button. -/
structure BackToTopState where
  visible : Bool
deriving DecidableEq

/-- Method `BackToTop.toggleVisibility` (554–560): the button has the `visible`
class iff `window.scrollY > 500`. -/
def toggleVisibility (y : Nat) (b : BackToTopState) : BackToTopState :=
  { b with visible := decide (y > 500) }

/-- C4, counterexample: scroll from 100 down to 300 — past the claimed
200px threshold — and the header is still not hidden: `isHidden` is
false and no transform was applied, because the hiding code is
commented out. (The `scrolled` class is correctly present.) -/
theorem C4_counterexample :
    (handleScroll 300 (handleScroll 100 stickyInit)).isHidden = false ∧
    (handleScroll 300 (handleScroll 100 stickyInit)).transform = "" ∧
    (handleScroll 300 (handleScroll 100 stickyInit)).scrolled = true := by
  decide

/-- C4, amended: after a scroll event the header has the `scrolled`
class iff `scrollY > 10` and the back-to-top button has the `visible`
class iff `scrollY > 500`; the header is never hidden on scrolling down
(the 200px hide/show behaviour is commented out, so `isHidden`,
`transform` and `lastScrollY` are left untouched by every scroll). -/
theorem C4_theorem (s : HeaderState) (y : Nat) (b : BackToTopState) :
    ((handleScroll y s).scrolled = true ↔ 10 < y) ∧
    (handleScroll y s).isHidden = s.isHidden ∧
    (handleScroll y s).transform = s.transform ∧
    (handleScroll y s).lastScrollY = s.lastScrollY ∧
    ((toggleVisibility y b).visible = true ↔ 500 < y) := by
  refine ⟨?_, rfl, rfl, rfl, ?_⟩ <;> simp [handleScroll, toggleVisibility]

/-! ## MobileNav (`main.js` 88–211) -/

/-- The state `MobileNav` reads and writes: its `isOpen` flag, the
`open` class on `.mobile-nav`, `aria-expanded` on the toggle button,
`document.body.style.overflow`, the cached focusable-element list, the
remembered `lastFocusedElement`, and `document.activeElement` (elements
are identified by numbers). -/
structure MobileState where
  isOpen : Bool
  openClass : Bool
  ariaExpanded : String
  bodyOverflow : String
  focusables : List Nat
  lastFocused : Option Nat
  active : Nat
deriving DecidableEq

/-- Method `MobileNav.open` (156–175): `fl` is what the focusable-element DOM
query returns at open time; focus moves to its head when it is
non-empty. (`trapFocus` only registers a listener.) -/
def mobileOpen (fl : List Nat) (s : MobileState) : MobileState :=
  let s := { s with isOpen := true, lastFocused := some s.active,
                    openClass := true, ariaExpanded := "true",
                    bodyOverflow := "hidden", focusables := fl }
  match fl with
  | [] => s
  | e :: _ => { s with active := e }

/-- Method `MobileNav.close` (177–188): clear the flags and restore focus to
`lastFocusedElement` when it is set. -/
def mobileClose (s : MobileState) : MobileState :=
  let s := { s with isOpen := false, openClass := false,
                    ariaExpanded := "false", bodyOverflow := "" }
  match s.lastFocused with
  | some e => { s with active := e }
  | none => s

/-- Method `MobileNav.toggle` (152–154). -/
def mobileToggle (fl : List Nat) (s : MobileState) : MobileState :=
  if s.isOpen then mobileClose s else mobileOpen fl s

/-- The mobile nav's state on page load. -/
def mobileInit : MobileState :=
  { isOpen := false, openClass := false, ariaExpanded := "false",
    bodyOverflow := "", focusables := [], lastFocused := none, active := 0 }

/-- C8: `open` sets `isOpen`, `aria-expanded='true'` and the `open`
class and focuses the first focusable element when one exists; `close`
clears `isOpen`, sets `aria-expanded='false'`, removes the class and
restores focus to the element that was focused before opening. -/
theorem C8_theorem (s : MobileState) (fl : List Nat) :
    (mobileOpen fl s).isOpen = true ∧
    (mobileOpen fl s).ariaExpanded = "true" ∧
    (mobileOpen fl s).openClass = true ∧
    (∀ e es, fl = e :: es → (mobileOpen fl s).active = e) ∧
    (mobileClose (mobileOpen fl s)).isOpen = false ∧
    (mobileClose (mobileOpen fl s)).ariaExpanded = "false" ∧
    (mobileClose (mobileOpen fl s)).openClass = false ∧
    (mobileClose (mobileOpen fl s)).active = s.active := by
  rcases fl with _ | ⟨e, es⟩ <;> simp [mobileOpen, mobileClose]

/-- Witness for `C8_theorem`: opening over elements `[5, 7]` focuses 5,
and closing again restores the initially focused element. -/
theorem C8_theorem_witness :
    (mobileOpen [5, 7] mobileInit).active = 5 ∧
    (mobileClose (mobileOpen [5, 7] mobileInit)).active = mobileInit.active := by
  have h := C8_theorem mobileInit [5, 7]
  exact ⟨h.2.2.2.1 5 [7] rfl, h.2.2.2.2.2.2.2⟩

/-! ## DesktopNav dropdowns (`main.js` 217–275) and the combined state -/

/-- Method `DesktopNav.toggleDropdown` (271–274) acting on the list of
per-dropdown `aria-expanded='true'` flags (a missing attribute reads as
not `'true'`; the panel's `aria-hidden` is always the negation and is
not tracked separately). -/
def toggleDropdown (dd : List Bool) (i : Nat) (isOpen : Bool) : List Bool :=
  dd.set i isOpen

/-- The combined open-state of all menus on the page. -/
structure NavState where
  mobile : MobileState
  dd : List Bool
deriving DecidableEq

/-- The user events `MobileNav.init` and `DesktopNav.init` handle that
can change a menu's open state. `fl` is the focusable list the DOM
returns when the mobile panel opens. -/
inductive NavOp : Type where
  | mobileToggleClick (fl : List Nat)
  | mobileCloseClick
  | escapeKey
  | enterOnTrigger (i : Nat)
  | arrowDownOnTrigger (i : Nat)
  | arrowUpAtTop (i : Nat)
  | escapeInDropdown (i : Nat)

/-- One step of the combined system: clicks and Escape drive the mobile
panel (104–115); Enter/Space toggles dropdown `i` against its current
`aria-expanded` (228–233); ArrowDown opens it (235–240); ArrowUp on the
first link (253–261) and Escape in the dropdown (263–266) close it. -/
def navStep (s : NavState) : NavOp → NavState
  | .mobileToggleClick fl => { s with mobile := mobileToggle fl s.mobile }
  | .mobileCloseClick => { s with mobile := mobileClose s.mobile }
  | .escapeKey =>
      if s.mobile.isOpen then { s with mobile := mobileClose s.mobile } else s
  | .enterOnTrigger i => { s with dd := toggleDropdown s.dd i (!s.dd.getD i false) }
  | .arrowDownOnTrigger i => { s with dd := toggleDropdown s.dd i true }
  | .arrowUpAtTop i => { s with dd := toggleDropdown s.dd i false }
  | .escapeInDropdown i => { s with dd := toggleDropdown s.dd i false }

/-- How many menus have their open state set. -/
def openMenus (s : NavState) : Nat :=
  (if s.mobile.isOpen then 1 else 0) + s.dd.count true

/-- Page-load state with two dropdown triggers, all menus closed. -/
def navInit : NavState := { mobile := mobileInit, dd := [false, false] }

/-- C5, counterexample: pressing Enter on dropdown trigger 0 and then
Enter on trigger 1 opens both — nothing closes one dropdown when
another opens — so a state with two simultaneously open menus is
reachable and the claimed invariant fails. -/
theorem C5_counterexample :
    openMenus (navStep (navStep navInit (.enterOnTrigger 0)) (.enterOnTrigger 1)) = 2 := by
  decide

/-- C5, amended: each operation changes the open state of at most its
own menu — dropdown operations on index `i` leave the mobile nav and
every other dropdown unchanged, and mobile-nav operations leave every
dropdown unchanged — but distinct dropdowns are independent, so states
with two menus open at once are reachable and the at-most-one-open-menu
invariant does not hold. -/
theorem C5_theorem (s : NavState) (i j : Nat) (b : Bool) (hij : j ≠ i) :
    (toggleDropdown s.dd i b).getD j false = s.dd.getD j false ∧
    (navStep s (.enterOnTrigger i)).mobile = s.mobile ∧
    (navStep s (.arrowDownOnTrigger i)).mobile = s.mobile ∧
    (navStep s (.arrowUpAtTop i)).mobile = s.mobile ∧
    (navStep s (.escapeInDropdown i)).mobile = s.mobile ∧
    (∀ fl, (navStep s (.mobileToggleClick fl)).dd = s.dd) ∧
    (navStep s .mobileCloseClick).dd = s.dd ∧
    (navStep s .escapeKey).dd = s.dd := by
  refine ⟨?_, rfl, rfl, rfl, rfl, fun fl => rfl, rfl, ?_⟩
  · simp [toggleDropdown, List.getD, List.getElem?_set_ne (Ne.symm hij)]
  · rw [navStep]
    split <;> rfl

/-- Witness for `C5_theorem`: opening dropdown 0 leaves dropdown 1
closed. -/
theorem C5_theorem_witness :
    (toggleDropdown navInit.dd 0 true).getD 1 false = false := by
  have h := C5_theorem navInit 0 1 true (by decide)
  exact h.1.trans (by decide)

end Delmar
